import Mathlib

/-!
Shallow embedding of the Tonb Riders backend (src/app.py): the signature
validator (`validate_init_data`), the map builder (`maps_create`) and the raid
session engine (`raid_start`, `raid_dig`, `raid_leave`, `my_tombs_claim`).

Database rows are modelled as association lists keyed by the integer primary
key; SQL `SELECT ... WHERE id = k` becomes `lookupRow` (first matching row) and
`UPDATE ... WHERE id = k` becomes `updateRow` (every matching row).  Monetary
REAL columns are modelled as rationals.  JSON-encoded list columns
(`grid_json`, `dug_json`, `dug_history`) are modelled as the decoded lists, the
JSON layer being pure serialization.
-/

namespace TonbRiders

/-- A row of the `users` table. -/
structure UserRow where
  balance : ℚ
  builder_credits : Int
deriving Repr, DecidableEq

/-- A row of the `maps` table (`grid_json` and `dug_json` decoded). -/
structure MapRow where
  creator_id : Int
  grid : List Int
  dug : List Int
  active : Bool
deriving Repr, DecidableEq

/-- A row of the `raid_sessions` table (`dug_history` decoded,
`expires_at` as an integer timestamp). -/
structure SessionRow where
  player_id : Int
  map_id : Int
  status : String
  earnings_buffer : ℚ
  dug_history : List Int
  expires_at : Int
deriving Repr, DecidableEq

/-- A row of the `transactions` ledger. -/
structure TxnRow where
  user_id : Int
  amount : ℚ
  ty : String
deriving Repr, DecidableEq

/-- The persistent state touched by the handlers. -/
structure World where
  users : List (Int × UserRow)
  maps : List (Int × MapRow)
  sessions : List (Int × SessionRow)
  transactions : List TxnRow
deriving Repr, DecidableEq

/-- `SELECT * FROM t WHERE id = k` : the first row keyed `k`. -/
def lookupRow {α : Type} : List (Int × α) → Int → Option α
  | [], _ => none
  | (a, b) :: rest, k => if a = k then some b else lookupRow rest k

/-- `UPDATE t SET ... WHERE id = k` : rewrite every row keyed `k`. -/
def updateRow {α : Type} : List (Int × α) → Int → (α → α) → List (Int × α)
  | [], _, _ => []
  | (a, b) :: rest, k, f =>
    (a, if a = k then f b else b) :: updateRow rest k f

theorem lookupRow_updateRow_self {α : Type} (rows : List (Int × α)) (k : Int)
    (f : α → α) : lookupRow (updateRow rows k f) k = (lookupRow rows k).map f := by
  induction rows with
  | nil => rfl
  | cons p rest ih =>
    obtain ⟨a, b⟩ := p
    rcases eq_or_ne a k with h | h
    · subst h
      simp [lookupRow, updateRow, ih]
    · simp [lookupRow, updateRow, h, ih]

theorem lookupRow_updateRow_ne {α : Type} (rows : List (Int × α)) (k j : Int)
    (f : α → α) (h : j ≠ k) :
    lookupRow (updateRow rows k f) j = lookupRow rows j := by
  induction rows with
  | nil => rfl
  | cons p rest ih =>
    obtain ⟨a, b⟩ := p
    rcases eq_or_ne a k with hk | hk
    · subst hk
      have hj : a ≠ j := Ne.symm h
      simp [lookupRow, updateRow, hj, ih]
    · rcases eq_or_ne a j with hj | hj
      · subst hj
        simp [lookupRow, updateRow, hk, ih]
      · simp [lookupRow, updateRow, hk, hj, ih]

theorem lookupRow_append_left {α : Type} (rows more : List (Int × α)) (k : Int)
    (v : α) (h : lookupRow rows k = some v) :
    lookupRow (rows ++ more) k = some v := by
  induction rows with
  | nil => simp [lookupRow] at h
  | cons p rest ih =>
    obtain ⟨a, b⟩ := p
    rcases eq_or_ne a k with hk | hk
    · subst hk
      simpa [lookupRow] using h
    · simp only [lookupRow, hk, if_neg, not_false_eq_true, List.cons_append] at h ⊢
      exact ih h

theorem updateRow_idem {α : Type} (rows : List (Int × α)) (k : Int) (f : α → α)
    (hf : ∀ a, f (f a) = f a) :
    updateRow (updateRow rows k f) k f = updateRow rows k f := by
  induction rows with
  | nil => rfl
  | cons p rest ih =>
    obtain ⟨a, b⟩ := p
    rcases eq_or_ne a k with hk | hk
    · subst hk
      simp [updateRow, hf, ih]
    · simp [updateRow, hk, ih]

/-! ## Map builder (`maps_create`, src/app.py lines 277-326) -/

/-- Outcome of `POST /api/maps/create`. -/
inductive CreateRes where
  | invalidGrid
  | invalidPlacement
  | chestNotAdjacent
  | noCredits
  | success
deriving Repr, DecidableEq

/-- `[i for i, x in enumerate(grid) if x == 4]`. -/
def chestPositions (grid : List Int) : List Int :=
  (grid.enum.filter (fun p => p.2 == 4)).map (fun p => (p.1 : Int))

/-- `len(chest_positions) == 2 and abs(p0 - p1) == 1` (the handler rejects
when either fails). -/
def chestsAdjacent (grid : List Int) : Bool :=
  match chestPositions grid with
  | [a, b] => (a - b).natAbs == 1
  | _ => false

/-- Handler `maps_create`: grid length check, placement counts, chest
adjacency, credit check, then debit one credit and insert the map.
`newMapId` stands for the SERIAL key assigned by the database. -/
def maps_create (w : World) (uid : Int) (grid : List Int) (newMapId : Int) :
    World × CreateRes :=
  if grid.length ≠ 48 then (w, .invalidGrid)
  else if grid.count 2 ≠ 4 ∨ grid.count 3 ≠ 2 ∨ grid.count 4 ≠ 2 then
    (w, .invalidPlacement)
  else if ¬ chestsAdjacent grid then (w, .chestNotAdjacent)
  else
    match lookupRow w.users uid with
    | none => (w, .noCredits)
    | some u =>
      if u.builder_credits ≤ 0 then (w, .noCredits)
      else
        ({ w with
            users := updateRow w.users uid
              (fun v => { v with builder_credits := v.builder_credits - 1 }),
            maps := w.maps ++
              [(newMapId,
                { creator_id := uid, grid := grid, dug := [], active := true })] },
          .success)

/-! ## Raid session engine (src/app.py lines 353-513, 543-579) -/

/-- The raid entry fee (`fee = 0.1` in `raid_start`). -/
def raidFee : ℚ := mkRat 1 10

/-- `[i for i, x in enumerate(grid) if x == 1]` (wall indices returned by
`raid_start`). -/
def wallIndices (grid : List Int) : List Int :=
  (grid.enum.filter (fun p => p.2 == 1)).map (fun p => (p.1 : Int))

/-- Outcome of `POST /api/raid/start`. -/
inductive StartRes where
  | missingMapId
  | insufficientBalance
  | mapNotFound
  | success (session_id : Int) (walls : List Int) (dug : List Int)
deriving Repr, DecidableEq

/-- Handler `raid_start`: `map_id` truthiness check, balance check (missing
user row reads as balance `0.0`), map existence check, then fee debit, ledger
entry and session insertion.  `newSid` stands for the SERIAL key assigned to
the new session; `now` is `datetime.now()`.  The second map fetch of the
source (for `walls`/`dug`) is mirrored; its failure branch closes the
connection without committing, which rolls back the writes. -/
def raid_start (w : World) (now uid : Int) (mid : Option Int) (newSid : Int) :
    World × StartRes :=
  match mid with
  | none => (w, .missingMapId)
  | some mid =>
    if mid = 0 then (w, .missingMapId)
    else
      let balance : ℚ :=
        match lookupRow w.users uid with
        | some u => u.balance
        | none => 0
      if balance < raidFee then (w, .insufficientBalance)
      else
        match lookupRow w.maps mid with
        | none => (w, .mapNotFound)
        | some _ =>
          let w1 : World :=
            { w with
                users := updateRow w.users uid
                  (fun u => { u with balance := u.balance - raidFee }),
                transactions := w.transactions ++ [⟨uid, -raidFee, "raid_entry"⟩] }
          let sess : SessionRow :=
            { player_id := uid, map_id := mid, status := "active",
              earnings_buffer := 0, dug_history := [], expires_at := now + 120 }
          let w2 : World := { w1 with sessions := w1.sessions ++ [(newSid, sess)] }
          match lookupRow w2.maps mid with
          | none => (w, .mapNotFound)
          | some m => (w2, .success newSid (wallIndices m.grid) m.dug)

/-- Outcome of `POST /api/raid/dig`.  `serverError` is the uncaught exception
path (missing map row or out-of-range grid read, surfaced as HTTP 500). -/
inductive DigRes where
  | badRequest
  | sessionNotFound
  | timeout
  | alreadyDug
  | serverError
  | dead (reward : ℚ)
  | hurt
  | safe (reward : ℚ) (stage_complete : Bool)
deriving Repr, DecidableEq

/-- Handler `raid_dig`: cell-index bounds check, session fetch keyed by id and
player, expiry check (`datetime.now() > expires_at` marks the session
`timeout`), private-history dedup, then the cell-type branches: trap (2) kills
the session and appends to the shared dug list; pit (3) marks the session
`hurt`; chest-half (4) or anything else pays `0.05` / `0.01` into the
earnings buffer, appends to both the private history and the shared dug list,
and reports `stage_complete` when the shared dug list has reached 12
entries. -/
def raid_dig (w : World) (now uid sid cell : Int) : World × DigRes :=
  if cell < 0 ∨ 48 ≤ cell then (w, .badRequest)
  else
    match lookupRow w.sessions sid with
    | none => (w, .sessionNotFound)
    | some s =>
      if s.player_id ≠ uid then (w, .sessionNotFound)
      else if s.expires_at < now then
        ({ w with
            sessions := updateRow w.sessions sid
              (fun t => { t with status := "timeout" }) }, .timeout)
      else if cell ∈ s.dug_history then (w, .alreadyDug)
      else
        match lookupRow w.maps s.map_id with
        | none => (w, .serverError)
        | some m =>
          match m.grid[cell.toNat]? with
          | none => (w, .serverError)
          | some cellType =>
            if cellType = 2 then
              ({ w with
                  sessions := updateRow w.sessions sid
                    (fun t => { t with status := "dead" }),
                  maps := updateRow w.maps s.map_id
                    (fun mm => { mm with dug := m.dug ++ [cell] }) }, .dead 0)
            else if cellType = 3 then
              ({ w with
                  sessions := updateRow w.sessions sid
                    (fun t => { t with status := "hurt" }) }, .hurt)
            else
              let reward : ℚ := if cellType = 4 then mkRat 5 100 else mkRat 1 100
              ({ w with
                  sessions := updateRow w.sessions sid
                    (fun t => { t with
                        earnings_buffer := s.earnings_buffer + reward,
                        dug_history := s.dug_history ++ [cell] }),
                  maps := updateRow w.maps s.map_id
                    (fun mm => { mm with dug := m.dug ++ [cell] }) },
                .safe reward (decide (12 ≤ (m.dug ++ [cell]).length)))

/-- Outcome of `POST /api/raid/leave`. -/
inductive LeaveRes where
  | sessionNotFound
  | success (earnings : ℚ)
deriving Repr, DecidableEq

/-- Handler `raid_leave`: session fetch keyed by id and player, then transfer
of the earnings buffer to the balance, one `raid_win` ledger entry, and the
session marked `completed`.  There is no check on the current status and the
buffer is not reset. -/
def raid_leave (w : World) (uid sid : Int) : World × LeaveRes :=
  match lookupRow w.sessions sid with
  | none => (w, .sessionNotFound)
  | some s =>
    if s.player_id ≠ uid then (w, .sessionNotFound)
    else
      ({ w with
          users := updateRow w.users uid
            (fun u => { u with balance := u.balance + s.earnings_buffer }),
          transactions := w.transactions ++
            [⟨uid, s.earnings_buffer, "raid_win"⟩],
          sessions := updateRow w.sessions sid
            (fun t => { t with status := "completed" }) },
        .success s.earnings_buffer)

/-- Outcome of `POST /api/my_tombs/claim`. -/
inductive ClaimRes where
  | mapNotFound
  | notReady
  | success (reward : ℚ)
deriving Repr, DecidableEq

/-- `sum(1 for i, x in enumerate(grid) if x in [0, 4] and i not in dug)`. -/
def safeCellCount (grid : List Int) (dug : List Int) : Nat :=
  ((grid.enum.filter
    (fun p => (p.2 == 0 || p.2 == 4) && ! dug.contains (p.1 : Int)))).length

/-- Handler `my_tombs_claim`: map fetch keyed by id and creator, readiness
check (`safe_cells >= 12` rejects), then deactivation, a fixed `1.0` reward
credited to the balance, and one `claim` ledger entry. -/
def my_tombs_claim (w : World) (uid mid : Int) : World × ClaimRes :=
  match lookupRow w.maps mid with
  | none => (w, .mapNotFound)
  | some m =>
    if m.creator_id ≠ uid then (w, .mapNotFound)
    else if 12 ≤ safeCellCount m.grid m.dug then (w, .notReady)
    else
      ({ w with
          maps := updateRow w.maps mid (fun mm => { mm with active := false }),
          users := updateRow w.users uid
            (fun u => { u with balance := u.balance + 1 }),
          transactions := w.transactions ++ [⟨uid, 1, "claim"⟩] },
        .success 1)

/-! ## Signature validator (`validate_init_data`, src/app.py lines 157-202)

The parsed query string is modelled as the association list of decoded
`key=value` pairs produced by `urllib.parse.parse_qsl` (the handler turns it
into a dict, so the lists of interest have pairwise distinct keys); the
parsing itself, the two HMAC-SHA256 applications of the library (`digest` and
`hexdigest`) and the composite `json.loads(user).get` are opaque library
functions taken as parameters, so every theorem below holds for the actual
primitives in particular.  `hmac.compare_digest` is modelled by string
equality, which is its input/output behaviour. -/

/-- The literal test bypass token (line 158). -/
def mockInitData : String := "mock_init_data"

/-- The domain-separation constant used to derive the secret key (line 185). -/
def webAppData : String := "WebAppData"

def hashKey : String := "hash"

def authDateKey : String := "auth_date"

def userKey : String := "user"

/-- Python string comparison: lexicographic on code points. -/
def lexLt : List Char → List Char → Bool
  | [], [] => false
  | [], _ :: _ => true
  | _ :: _, [] => false
  | a :: as, b :: bs =>
    if a.toNat < b.toNat then true
    else if b.toNat < a.toNat then false
    else lexLt as bs

/-- Python tuple comparison on `(key, value)` pairs, as used by
`sorted(data.items())`. -/
def pairLt (p q : String × String) : Bool :=
  lexLt p.1.toList q.1.toList ||
    (p.1 == q.1 && lexLt p.2.toList q.2.toList)

def insertPair (x : String × String) :
    List (String × String) → List (String × String)
  | [] => [x]
  | y :: ys => if pairLt x y then x :: y :: ys else y :: insertPair x ys

/-- Insertion sort by `pairLt`, modelling `sorted(data.items())`: on lists
with pairwise distinct keys (the dict case) it returns the unique ascending
reordering, which is what `sorted` returns. -/
def sortPairs : List (String × String) → List (String × String)
  | [] => []
  | x :: xs => insertPair x (sortPairs xs)

/-- `dict.get`-style field access on the parsed pairs (first match; dicts
never hold a key twice). -/
def lookupField (data : List (String × String)) (k : String) : Option String :=
  (data.find? (fun p => p.1 == k)).map Prod.snd

/-- `'\n'.join(f"{k}={v}" for k, v in sorted(data.items()))` computed after
`data.pop('hash')`. -/
def dataCheckString (data : List (String × String)) : String :=
  String.intercalate ("\n")
    ((sortPairs (data.filter (fun p => p.1 != hashKey))).map
      (fun p => p.1 ++ "=" ++ p.2))

/-- `int(s)` restricted to an optional sign followed by digits; returns
`none` where Python raises `ValueError`.  (Surrounding whitespace and digit
underscores, which Python also accepts, do not occur in the payloads under
study.) -/
def pyInt? (s : String) : Option Int :=
  let chars := s.toList
  let core : List Char :=
    match chars with
    | c :: rest => if c = '-' ∨ c = '+' then rest else chars
    | [] => []
  if core = [] ∨ ¬ core.all Char.isDigit then none
  else
    let n : Nat := core.foldl (fun acc d => acc * 10 + (d.toNat - 48)) 0
    some (if chars.head? = some ('-') then -(n : Int) else (n : Int))

/-- `hex HMAC-SHA256 keyed by HMAC-SHA256('WebAppData', token)`, built from
the two opaque HMAC primitives (lines 185-186). -/
def telegramCalculatedHash (hmacRaw hmacHex : String → String → String)
    (botToken payload : String) : String :=
  hmacHex (hmacRaw webAppData botToken) payload

/-- Result of `validate_init_data`: the extracted caller id, `None`
(`invalid`), the `BOT_TOKEN not set` ValueError (`configError`), or an
uncaught exception from `int(data['auth_date'])` (`err`). -/
inductive VResult where
  | valid (uid : Int)
  | invalid
  | configError
  | err
deriving Repr, DecidableEq

/-- `validate_init_data`: test bypass, token presence check, parse, freshness
check on `auth_date` (reject at or past 24 hours = 86400 seconds), hash
presence check, constant-time comparison of the received hash against the
recomputed one over the remaining fields sorted by key, then extraction of
`user.id`.  `now` is `time.time()`; `parseQsl` is `parse_qsl` plus `dict`;
`parseUserId` is `json.loads` composed with `.get('id')`, `none` covering
both the caught parse failure and a missing id. -/
def validate_init_data (hmacRaw hmacHex : String → String → String)
    (parseUserId : String → Option Int)
    (parseQsl : String → List (String × String))
    (botToken : String) (now : ℚ) (init_data : String) : VResult :=
  if init_data = mockInitData then .valid 1
  else if botToken = "" then .configError
  else
    let data := parseQsl init_data
    match lookupField data authDateKey with
    | none => .invalid
    | some a =>
      match pyInt? a with
      | none => .err
      | some ad =>
        if (86400 : ℚ) ≤ now - (ad : ℚ) then .invalid
        else
          match lookupField data hashKey with
          | none => .invalid
          | some received =>
            if received =
                telegramCalculatedHash hmacRaw hmacHex botToken
                  (dataCheckString data) then
              match lookupField data userKey with
              | none => .invalid
              | some u =>
                match parseUserId u with
                | none => .invalid
                | some uid => .valid uid
            else .invalid

/-! ## Claim theorems -/

/-- C2: for every 48-cell grid with exactly 4 traps, 2 pits and 2 adjacent
chest-halves, `maps_create` succeeds iff the creator holds at least one
builder credit, and on success the creator's credits decrease by exactly one;
for every grid violating a length, count or adjacency rule it returns a
validation error and the state (in particular the creator's credits) is
unchanged. -/
theorem C2_maps_create_credit_gate :
    (∀ (w : World) (uid : Int) (grid : List Int) (nm : Int) (u : UserRow),
      grid.length = 48 → grid.count 2 = 4 → grid.count 3 = 2 →
      grid.count 4 = 2 → chestsAdjacent grid = true →
      lookupRow w.users uid = some u →
      (((maps_create w uid grid nm).2 = .success) ↔ 1 ≤ u.builder_credits)
      ∧ (1 ≤ u.builder_credits →
          lookupRow (maps_create w uid grid nm).1.users uid =
            some { u with builder_credits := u.builder_credits - 1 }))
    ∧ (∀ (w : World) (uid : Int) (grid : List Int) (nm : Int),
      ¬ (grid.length = 48 ∧ grid.count 2 = 4 ∧ grid.count 3 = 2 ∧
         grid.count 4 = 2 ∧ chestsAdjacent grid = true) →
      ((maps_create w uid grid nm).2 = .invalidGrid ∨
       (maps_create w uid grid nm).2 = .invalidPlacement ∨
       (maps_create w uid grid nm).2 = .chestNotAdjacent)
      ∧ (maps_create w uid grid nm).1 = w) := by
  constructor
  · intro w uid grid nm u hlen h2 h3 h4 hadj hu
    rcases le_or_lt u.builder_credits 0 with hc | hc
    · have : maps_create w uid grid nm = (w, .noCredits) := by
        simp [maps_create, hlen, h2, h3, h4, hadj, hu, hc]
      refine ⟨?_, ?_⟩
      · rw [this]
        constructor
        · intro hcontra
          exact absurd hcontra (by simp)
        · intro h1
          omega
      · intro h1
        omega
    · have hc2 : ¬ u.builder_credits ≤ 0 := by omega
      have : maps_create w uid grid nm =
          ({ w with
              users := updateRow w.users uid
                (fun v => { v with builder_credits := v.builder_credits - 1 }),
              maps := w.maps ++
                [(nm, { creator_id := uid, grid := grid, dug := [],
                        active := true })] }, .success) := by
        simp [maps_create, hlen, h2, h3, h4, hadj, hu, hc2]
      refine ⟨?_, ?_⟩
      · rw [this]
        simp
        omega
      · intro _
        rw [this]
        simp only
        rw [lookupRow_updateRow_self, hu]
        rfl
  · intro w uid grid nm hbad
    by_cases hlen : grid.length = 48
    · by_cases hcnt : grid.count 2 = 4 ∧ grid.count 3 = 2 ∧ grid.count 4 = 2
      · obtain ⟨h2, h3, h4⟩ := hcnt
        have hadj : ¬ chestsAdjacent grid = true := fun h =>
          hbad ⟨hlen, h2, h3, h4, h⟩
        have : maps_create w uid grid nm = (w, .chestNotAdjacent) := by
          simp [maps_create, hlen, h2, h3, h4, hadj]
        rw [this]
        simp
      · have : maps_create w uid grid nm = (w, .invalidPlacement) := by
          have hcnt2 : grid.count 2 ≠ 4 ∨ grid.count 3 ≠ 2 ∨ grid.count 4 ≠ 2 := by
            tauto
          simp [maps_create, hlen, hcnt2]
        rw [this]
        simp
    · have : maps_create w uid grid nm = (w, .invalidGrid) := by
        simp [maps_create, hlen]
      rw [this]
      simp

/-- A valid grid: 40 empty cells, 4 traps, 2 pits, 2 adjacent chest-halves
(and zero wall cells). -/
def demoGridOk : List Int :=
  List.replicate 40 0 ++ [2, 2, 2, 2, 3, 3, 4, 4]

/-- A one-user world: user 1 holds balance 1.0 and 5 builder credits. -/
def demoWorldC2 : World :=
  { users := [(1, { balance := 1, builder_credits := 5 })],
    maps := [], sessions := [], transactions := [] }

theorem C2_maps_create_credit_gate_witness :
    ((maps_create demoWorldC2 1 demoGridOk 7).2 = .success ↔ 1 ≤ (5 : Int))
    ∧ lookupRow (maps_create demoWorldC2 1 demoGridOk 7).1.users 1 =
        some { balance := 1, builder_credits := 4 }
    ∧ ((maps_create demoWorldC2 1 [] 7).2 = .invalidGrid ∨
       (maps_create demoWorldC2 1 [] 7).2 = .invalidPlacement ∨
       (maps_create demoWorldC2 1 [] 7).2 = .chestNotAdjacent)
    ∧ (maps_create demoWorldC2 1 [] 7).1 = demoWorldC2 := by
  have ha := C2_maps_create_credit_gate.1 demoWorldC2 1 demoGridOk 7
    { balance := 1, builder_credits := 5 }
    (by decide) (by decide) (by decide) (by decide) (by decide) (by decide)
  have hb := C2_maps_create_credit_gate.2 demoWorldC2 1 [] 7 (by decide)
  refine ⟨ha.1, ?_, hb.1, hb.2⟩
  simpa using ha.2 (by decide)

/-- C9 (amended): every map accepted by `maps_create` has, at creation time,
a 48-cell grid with exactly 4 trap cells, 2 pit cells and 2 adjacent
chest-half cells; the wall-cell count is computed but never validated, so
48-cell grids whose wall count differs from 16 are accepted (see the
counterexample). -/
theorem C9_accepted_map_shape (w : World) (uid : Int) (grid : List Int)
    (nm : Int) (h : (maps_create w uid grid nm).2 = .success) :
    grid.length = 48 ∧ grid.count 2 = 4 ∧ grid.count 3 = 2 ∧
    grid.count 4 = 2 ∧ chestsAdjacent grid = true := by
  by_cases hlen : grid.length = 48
  · by_cases h2 : grid.count 2 = 4
    · by_cases h3 : grid.count 3 = 2
      · by_cases h4 : grid.count 4 = 2
        · by_cases hadj : chestsAdjacent grid = true
          · exact ⟨hlen, h2, h3, h4, hadj⟩
          · have : maps_create w uid grid nm = (w, .chestNotAdjacent) := by
              simp [maps_create, hlen, h2, h3, h4, hadj]
            rw [this] at h
            exact absurd h (by simp)
        · have : maps_create w uid grid nm = (w, .invalidPlacement) := by
            simp [maps_create, hlen, h4]
          rw [this] at h
          exact absurd h (by simp)
      · have : maps_create w uid grid nm = (w, .invalidPlacement) := by
          simp [maps_create, hlen, h3]
        rw [this] at h
        exact absurd h (by simp)
    · have : maps_create w uid grid nm = (w, .invalidPlacement) := by
        simp [maps_create, hlen, h2]
      rw [this] at h
      exact absurd h (by simp)
  · have : maps_create w uid grid nm = (w, .invalidGrid) := by
      simp [maps_create, hlen]
    rw [this] at h
    exact absurd h (by simp)

theorem C9_accepted_map_shape_witness :
    demoGridOk.length = 48 ∧ demoGridOk.count 2 = 4 ∧
    demoGridOk.count 3 = 2 ∧ demoGridOk.count 4 = 2 ∧
    chestsAdjacent demoGridOk = true :=
  C9_accepted_map_shape demoWorldC2 1 demoGridOk 7 (by decide)

/-- C9 counterexample: a 48-cell grid with zero wall cells (count ≠ 16)
passes `maps_create`, refuting the claim that grids whose wall count differs
from 16 are rejected. -/
theorem C9_wall_count_not_enforced :
    demoGridOk.length = 48 ∧ demoGridOk.count 1 ≠ 16 ∧
    (maps_create demoWorldC2 1 demoGridOk 7).2 = .success := by decide

/-- Session of player 1 on map 5 with some prior earnings and history. -/
def demoSession1 : SessionRow :=
  { player_id := 1, map_id := 5, status := "active",
    earnings_buffer := mkRat 3 100, dug_history := [0], expires_at := 1000 }

/-- Fresh session of player 2 on the same map 5. -/
def demoSession2 : SessionRow :=
  { player_id := 2, map_id := 5, status := "active",
    earnings_buffer := 0, dug_history := [], expires_at := 1000 }

/-- Map 5, created by user 3, over `demoGridOk` (traps at 40-43). -/
def demoMap5 : MapRow :=
  { creator_id := 3, grid := demoGridOk, dug := [], active := true }

/-- Two raiders with sessions on user 3's map. -/
def demoWorldDig : World :=
  { users := [(1, { balance := 1, builder_credits := 0 }),
              (2, { balance := 1, builder_credits := 0 }),
              (3, { balance := 0, builder_credits := 0 })],
    maps := [(5, demoMap5)],
    sessions := [(10, demoSession1), (20, demoSession2)],
    transactions := [] }

/-- C3: digging a trap cell (code 2) in a live owned session returns outcome
dead with reward 0 regardless of the prior earnings buffer, appends the cell
to the map's shared dug list, and leaves the session's private history and
earnings buffer unchanged (only its status moves to dead). -/
theorem C3_dig_trap_kills (w : World) (now uid sid cell : Int)
    (s : SessionRow) (m : MapRow)
    (hs : lookupRow w.sessions sid = some s)
    (hown : s.player_id = uid)
    (hcell0 : 0 ≤ cell) (hcell48 : cell < 48)
    (hfresh : ¬ s.expires_at < now)
    (hnew : cell ∉ s.dug_history)
    (hm : lookupRow w.maps s.map_id = some m)
    (htrap : m.grid[cell.toNat]? = some 2) :
    (raid_dig w now uid sid cell).2 = .dead 0
    ∧ lookupRow (raid_dig w now uid sid cell).1.sessions sid =
        some { s with status := "dead" }
    ∧ lookupRow (raid_dig w now uid sid cell).1.maps s.map_id =
        some { m with dug := m.dug ++ [cell] } := by
  have hbad : ¬ (cell < 0 ∨ 48 ≤ cell) := by omega
  have hown2 : ¬ s.player_id ≠ uid := by simp [hown]
  have heq : raid_dig w now uid sid cell =
      ({ w with
          sessions := updateRow w.sessions sid
            (fun t => { t with status := "dead" }),
          maps := updateRow w.maps s.map_id
            (fun mm => { mm with dug := m.dug ++ [cell] }) }, .dead 0) := by
    simp [raid_dig, hbad, hs, hown2, hfresh, hnew, hm, htrap]
  rw [heq]
  refine ⟨rfl, ?_, ?_⟩
  · simp only
    rw [lookupRow_updateRow_self, hs]
    rfl
  · simp only
    rw [lookupRow_updateRow_self, hm]
    rfl

theorem C3_dig_trap_kills_witness :
    (raid_dig demoWorldDig 500 1 10 40).2 = .dead 0
    ∧ lookupRow (raid_dig demoWorldDig 500 1 10 40).1.sessions 10 =
        some { demoSession1 with status := "dead" }
    ∧ lookupRow (raid_dig demoWorldDig 500 1 10 40).1.maps 5 =
        some { demoMap5 with dug := [40] } :=
  C3_dig_trap_kills demoWorldDig 500 1 10 40 demoSession1 demoMap5
    (by decide) (by decide) (by decide) (by decide) (by decide) (by decide)
    (by decide) (by decide)

/-- C4: digging in an owned session past its `expires_at`, with any valid
cell index, returns status timeout regardless of the cell's content, marks
the session `timeout`, and touches no other state; repeated digs on that
expired session keep returning timeout and leave the whole state exactly as
after the first call. -/
theorem C4_dig_timeout_idempotent (w : World) (now uid sid cell : Int)
    (s : SessionRow)
    (hs : lookupRow w.sessions sid = some s)
    (hown : s.player_id = uid)
    (hcell0 : 0 ≤ cell) (hcell48 : cell < 48)
    (hexp : s.expires_at < now) :
    (raid_dig w now uid sid cell).2 = .timeout
    ∧ lookupRow (raid_dig w now uid sid cell).1.sessions sid =
        some { s with status := "timeout" }
    ∧ (raid_dig w now uid sid cell).1.maps = w.maps
    ∧ (raid_dig w now uid sid cell).1.users = w.users
    ∧ (raid_dig w now uid sid cell).1.transactions = w.transactions
    ∧ (∀ now2 cell2, now ≤ now2 → 0 ≤ cell2 → cell2 < 48 →
        (raid_dig (raid_dig w now uid sid cell).1 now2 uid sid cell2).2 =
          .timeout
        ∧ (raid_dig (raid_dig w now uid sid cell).1 now2 uid sid cell2).1 =
            (raid_dig w now uid sid cell).1) := by
  have hbad : ¬ (cell < 0 ∨ 48 ≤ cell) := by omega
  have hown2 : ¬ s.player_id ≠ uid := by simp [hown]
  have heq : raid_dig w now uid sid cell =
      ({ w with
          sessions := updateRow w.sessions sid
            (fun t => { t with status := "timeout" }) }, .timeout) := by
    simp [raid_dig, hbad, hs, hown2, hexp]
  have hlook : lookupRow
      (updateRow w.sessions sid (fun t => { t with status := "timeout" })) sid =
      some { s with status := "timeout" } := by
    rw [lookupRow_updateRow_self, hs]
    rfl
  refine ⟨by rw [heq], by rw [heq]; exact hlook, by rw [heq], by rw [heq],
    by rw [heq], ?_⟩
  intro now2 cell2 hle h0 h48
  have hbad2 : ¬ (cell2 < 0 ∨ 48 ≤ cell2) := by omega
  have hexp2 : s.expires_at < now2 := by omega
  have heq2 : raid_dig (raid_dig w now uid sid cell).1 now2 uid sid cell2 =
      ({ (raid_dig w now uid sid cell).1 with
          sessions := updateRow (raid_dig w now uid sid cell).1.sessions sid
            (fun t => { t with status := "timeout" }) }, .timeout) := by
    rw [heq]
    simp [raid_dig, hbad2, hlook, hown2, hexp2]
  refine ⟨by rw [heq2], ?_⟩
  rw [heq2, heq]
  simp only
  rw [updateRow_idem]
  intro a
  rfl

theorem C4_dig_timeout_idempotent_witness :
    (raid_dig demoWorldDig 2000 1 10 5).2 = .timeout
    ∧ lookupRow (raid_dig demoWorldDig 2000 1 10 5).1.sessions 10 =
        some { demoSession1 with status := "timeout" }
    ∧ (raid_dig demoWorldDig 2000 1 10 5).1.maps = demoWorldDig.maps
    ∧ (raid_dig demoWorldDig 2000 1 10 5).1.users = demoWorldDig.users
    ∧ (raid_dig demoWorldDig 2000 1 10 5).1.transactions =
        demoWorldDig.transactions
    ∧ ((raid_dig (raid_dig demoWorldDig 2000 1 10 5).1 2001 1 10 6).2 =
        .timeout
      ∧ (raid_dig (raid_dig demoWorldDig 2000 1 10 5).1 2001 1 10 6).1 =
          (raid_dig demoWorldDig 2000 1 10 5).1) := by
  have h := C4_dig_timeout_idempotent demoWorldDig 2000 1 10 5 demoSession1
    (by rfl) (by decide) (by decide) (by decide) (by decide)
  exact ⟨h.1, h.2.1, h.2.2.1, h.2.2.2.1, h.2.2.2.2.1,
    h.2.2.2.2.2 2001 6 (by decide) (by decide) (by decide)⟩

/-- C5: for any session owned by the caller — with any current status,
including dead, hurt, timeout and completed — `raid_leave` adds exactly the
session's earnings buffer to the caller's balance, appends exactly one
`raid_win` ledger entry of that amount, and marks the session completed. -/
theorem C5_leave_transfers_buffer (w : World) (uid sid : Int)
    (s : SessionRow) (u : UserRow)
    (hs : lookupRow w.sessions sid = some s)
    (hown : s.player_id = uid)
    (hu : lookupRow w.users uid = some u) :
    (raid_leave w uid sid).2 = .success s.earnings_buffer
    ∧ lookupRow (raid_leave w uid sid).1.users uid =
        some { u with balance := u.balance + s.earnings_buffer }
    ∧ (raid_leave w uid sid).1.transactions =
        w.transactions ++ [⟨uid, s.earnings_buffer, "raid_win"⟩]
    ∧ lookupRow (raid_leave w uid sid).1.sessions sid =
        some { s with status := "completed" } := by
  have hown2 : ¬ s.player_id ≠ uid := by simp [hown]
  have heq : raid_leave w uid sid =
      ({ w with
          users := updateRow w.users uid
            (fun v => { v with balance := v.balance + s.earnings_buffer }),
          transactions := w.transactions ++
            [⟨uid, s.earnings_buffer, "raid_win"⟩],
          sessions := updateRow w.sessions sid
            (fun t => { t with status := "completed" }) },
        .success s.earnings_buffer) := by
    simp [raid_leave, hs, hown2]
  rw [heq]
  refine ⟨rfl, ?_, rfl, ?_⟩
  · simp only
    rw [lookupRow_updateRow_self, hu]
    rfl
  · simp only
    rw [lookupRow_updateRow_self, hs]
    rfl

theorem C5_leave_transfers_buffer_witness :
    (raid_leave demoWorldDig 1 10).2 = .success demoSession1.earnings_buffer
    ∧ lookupRow (raid_leave demoWorldDig 1 10).1.users 1 =
        some { balance := 1 + demoSession1.earnings_buffer,
               builder_credits := 0 }
    ∧ (raid_leave demoWorldDig 1 10).1.transactions =
        [⟨1, demoSession1.earnings_buffer, "raid_win"⟩]
    ∧ lookupRow (raid_leave demoWorldDig 1 10).1.sessions 10 =
        some { demoSession1 with status := "completed" } := by
  have h := C5_leave_transfers_buffer demoWorldDig 1 10 demoSession1
    { balance := 1, builder_credits := 0 } (by rfl) (by decide) (by rfl)
  exact ⟨h.1, h.2.1, h.2.2.1, h.2.2.2⟩

/-- One-step characterization of `raid_leave` on a found, owned session. -/
theorem raid_leave_spec (w : World) (uid sid : Int) (s : SessionRow)
    (hs : lookupRow w.sessions sid = some s)
    (hown : s.player_id = uid) :
    raid_leave w uid sid =
      ({ w with
          users := updateRow w.users uid
            (fun v => { v with balance := v.balance + s.earnings_buffer }),
          transactions := w.transactions ++
            [⟨uid, s.earnings_buffer, "raid_win"⟩],
          sessions := updateRow w.sessions sid
            (fun t => { t with status := "completed" }) },
        .success s.earnings_buffer) := by
  have hown2 : ¬ s.player_id ≠ uid := by simp [hown]
  simp [raid_leave, hs, hown2]

/-- C10: `raid_leave` does not reset the earnings buffer — after a
successful leave the session's `earnings_buffer` is unchanged, so a second
leave on the same session credits the same amount to the balance again and
appends a second identical `raid_win` ledger entry. -/
theorem C10_leave_buffer_not_reset (w : World) (uid sid : Int)
    (s : SessionRow) (u : UserRow)
    (hs : lookupRow w.sessions sid = some s)
    (hown : s.player_id = uid)
    (hu : lookupRow w.users uid = some u) :
    (lookupRow (raid_leave w uid sid).1.sessions sid).map
        SessionRow.earnings_buffer = some s.earnings_buffer
    ∧ (raid_leave (raid_leave w uid sid).1 uid sid).2 =
        .success s.earnings_buffer
    ∧ lookupRow (raid_leave (raid_leave w uid sid).1 uid sid).1.users uid =
        some { u with balance := u.balance + s.earnings_buffer +
                 s.earnings_buffer }
    ∧ (raid_leave (raid_leave w uid sid).1 uid sid).1.transactions =
        w.transactions ++ [⟨uid, s.earnings_buffer, "raid_win"⟩,
          ⟨uid, s.earnings_buffer, "raid_win"⟩] := by
  rw [raid_leave_spec w uid sid s hs hown]
  set w1 : World :=
    { w with
        users := updateRow w.users uid
          (fun v => { v with balance := v.balance + s.earnings_buffer }),
        transactions := w.transactions ++
          [⟨uid, s.earnings_buffer, "raid_win"⟩],
        sessions := updateRow w.sessions sid
          (fun t => { t with status := "completed" }) } with hw1
  have hlooks : lookupRow w1.sessions sid =
      some { s with status := "completed" } := by
    rw [hw1]
    simp only
    rw [lookupRow_updateRow_self, hs]
    rfl
  have hlooku : lookupRow w1.users uid =
      some { u with balance := u.balance + s.earnings_buffer } := by
    rw [hw1]
    simp only
    rw [lookupRow_updateRow_self, hu]
    rfl
  rw [raid_leave_spec w1 uid sid { s with status := "completed" } hlooks hown]
  refine ⟨by rw [hlooks]; rfl, rfl, ?_, ?_⟩
  · simp only
    rw [lookupRow_updateRow_self, hlooku]
    rfl
  · simp [List.append_assoc]

theorem C10_leave_buffer_not_reset_witness :
    (lookupRow (raid_leave demoWorldDig 1 10).1.sessions 10).map
        SessionRow.earnings_buffer = some demoSession1.earnings_buffer
    ∧ (raid_leave (raid_leave demoWorldDig 1 10).1 1 10).2 =
        .success demoSession1.earnings_buffer
    ∧ lookupRow (raid_leave (raid_leave demoWorldDig 1 10).1 1 10).1.users 1 =
        some { balance := 1 + demoSession1.earnings_buffer +
                 demoSession1.earnings_buffer, builder_credits := 0 }
    ∧ (raid_leave (raid_leave demoWorldDig 1 10).1 1 10).1.transactions =
        [⟨1, demoSession1.earnings_buffer, "raid_win"⟩,
         ⟨1, demoSession1.earnings_buffer, "raid_win"⟩] := by
  have h := C10_leave_buffer_not_reset demoWorldDig 1 10 demoSession1
    { balance := 1, builder_credits := 0 } (by rfl) (by decide) (by rfl)
  exact ⟨h.1, h.2.1, h.2.2.1, h.2.2.2⟩

/-- One-step characterization of a successful `my_tombs_claim`. -/
theorem my_tombs_claim_spec_success (w : World) (uid mid : Int) (m : MapRow)
    (hm : lookupRow w.maps mid = some m)
    (hown : m.creator_id = uid)
    (hready : safeCellCount m.grid m.dug < 12) :
    my_tombs_claim w uid mid =
      ({ w with
          maps := updateRow w.maps mid (fun mm => { mm with active := false }),
          users := updateRow w.users uid
            (fun u => { u with balance := u.balance + 1 }),
          transactions := w.transactions ++ [⟨uid, 1, "claim"⟩] },
        .success 1) := by
  have hown2 : ¬ m.creator_id ≠ uid := by simp [hown]
  have hnr : ¬ 12 ≤ safeCellCount m.grid m.dug := by omega
  simp [my_tombs_claim, hm, hown2, hnr]

/-- `my_tombs_claim` never reactivates a map: a row already inactive is left
exactly as it is by any further claim call. -/
theorem claim_preserves_inactive (w : World) (uid2 mid2 mid : Int) (m : MapRow)
    (hm : lookupRow w.maps mid = some m) (hact : m.active = false) :
    lookupRow (my_tombs_claim w uid2 mid2).1.maps mid = some m := by
  cases hm2 : lookupRow w.maps mid2 with
  | none =>
    have heq : my_tombs_claim w uid2 mid2 = (w, .mapNotFound) := by
      simp [my_tombs_claim, hm2]
    rw [heq]
    exact hm
  | some m2 =>
    by_cases hown : m2.creator_id ≠ uid2
    · have heq : my_tombs_claim w uid2 mid2 = (w, .mapNotFound) := by
        simp [my_tombs_claim, hm2, hown]
      rw [heq]
      exact hm
    · have howneq : m2.creator_id = uid2 := not_not.mp hown
      by_cases hready : 12 ≤ safeCellCount m2.grid m2.dug
      · have heq : my_tombs_claim w uid2 mid2 = (w, .notReady) := by
          simp [my_tombs_claim, hm2, hown, hready]
        rw [heq]
        exact hm
      · have hlt : safeCellCount m2.grid m2.dug < 12 := by omega
        rw [my_tombs_claim_spec_success w uid2 mid2 m2 hm2 howneq hlt]
        simp only
        rcases eq_or_ne mid mid2 with he | he
        · subst he
          rw [lookupRow_updateRow_self, hm]
          obtain ⟨c, g, d, a⟩ := m
          simp only at hact
          subst hact
          rfl
        · rw [lookupRow_updateRow_ne _ _ _ _ he]
          exact hm

/-- C6: for a map owned by the caller, `my_tombs_claim` succeeds iff the
remaining safe-cell count (cells of code 0 or 4 not in the shared dug list)
is strictly below 12; a succeeding claim sets `active := false` (and no
later claim ever changes that row again), credits the fixed reward 1.0 to
the owner's balance, and appends one `claim` ledger entry; a claim with
remaining safe cells at or above 12 is rejected with no state change. -/
theorem C6_claim_tomb_threshold (w : World) (uid mid : Int) (m : MapRow)
    (u : UserRow)
    (hm : lookupRow w.maps mid = some m)
    (hown : m.creator_id = uid)
    (hu : lookupRow w.users uid = some u) :
    ((∃ q, (my_tombs_claim w uid mid).2 = .success q) ↔
      safeCellCount m.grid m.dug < 12)
    ∧ (safeCellCount m.grid m.dug < 12 →
        (my_tombs_claim w uid mid).2 = .success 1
        ∧ lookupRow (my_tombs_claim w uid mid).1.maps mid =
            some { m with active := false }
        ∧ lookupRow (my_tombs_claim w uid mid).1.users uid =
            some { u with balance := u.balance + 1 }
        ∧ (my_tombs_claim w uid mid).1.transactions =
            w.transactions ++ [⟨uid, 1, "claim"⟩]
        ∧ (∀ uid2 mid2,
            lookupRow
              (my_tombs_claim (my_tombs_claim w uid mid).1 uid2 mid2).1.maps
              mid = some { m with active := false }))
    ∧ (12 ≤ safeCellCount m.grid m.dug →
        (my_tombs_claim w uid mid).1 = w
        ∧ (my_tombs_claim w uid mid).2 = .notReady) := by
  have hown2 : ¬ m.creator_id ≠ uid := by simp [hown]
  refine ⟨?_, ?_, ?_⟩
  · constructor
    · intro hq
      by_contra hge
      have hready : 12 ≤ safeCellCount m.grid m.dug := by omega
      have : my_tombs_claim w uid mid = (w, .notReady) := by
        simp [my_tombs_claim, hm, hown2, hready]
      rw [this] at hq
      obtain ⟨q, hq⟩ := hq
      exact absurd hq (by simp)
    · intro hlt
      rw [my_tombs_claim_spec_success w uid mid m hm hown hlt]
      exact ⟨1, rfl⟩
  · intro hlt
    rw [my_tombs_claim_spec_success w uid mid m hm hown hlt]
    have hmap : lookupRow
        (updateRow w.maps mid (fun mm => { mm with active := false })) mid =
        some { m with active := false } := by
      rw [lookupRow_updateRow_self, hm]
      rfl
    refine ⟨rfl, hmap, ?_, rfl, ?_⟩
    · simp only
      rw [lookupRow_updateRow_self, hu]
      rfl
    · intro uid2 mid2
      exact claim_preserves_inactive _ uid2 mid2 mid { m with active := false }
        hmap rfl
  · intro hready
    have : my_tombs_claim w uid mid = (w, .notReady) := by
      simp [my_tombs_claim, hm, hown2, hready]
    rw [this]
    exact ⟨rfl, rfl⟩

/-- Map 5's grid fully dug out: no safe cells remain. -/
def demoMapDugOut : MapRow :=
  { creator_id := 3, grid := demoGridOk,
    dug := (List.range 48).map (fun n => (n : Int)), active := true }

/-- User 3 owns a claimable (fully dug) map 5 and an untouched map 6. -/
def demoWorldClaim : World :=
  { users := [(3, { balance := 0, builder_credits := 0 })],
    maps := [(5, demoMapDugOut), (6, demoMap5)],
    sessions := [], transactions := [] }

theorem C6_claim_tomb_threshold_witness :
    ((∃ q, (my_tombs_claim demoWorldClaim 3 5).2 = .success q) ↔
      safeCellCount demoMapDugOut.grid demoMapDugOut.dug < 12)
    ∧ ((my_tombs_claim demoWorldClaim 3 5).2 = .success 1
      ∧ lookupRow (my_tombs_claim demoWorldClaim 3 5).1.maps 5 =
          some { demoMapDugOut with active := false }
      ∧ lookupRow (my_tombs_claim demoWorldClaim 3 5).1.users 3 =
          some { balance := 0 + 1, builder_credits := 0 }
      ∧ (my_tombs_claim demoWorldClaim 3 5).1.transactions =
          [⟨3, 1, "claim"⟩]
      ∧ lookupRow
          (my_tombs_claim (my_tombs_claim demoWorldClaim 3 5).1 3 5).1.maps
          5 = some { demoMapDugOut with active := false })
    ∧ ((my_tombs_claim demoWorldClaim 3 6).1 = demoWorldClaim
      ∧ (my_tombs_claim demoWorldClaim 3 6).2 = .notReady) := by
  have h5 := C6_claim_tomb_threshold demoWorldClaim 3 5 demoMapDugOut
    { balance := 0, builder_credits := 0 } (by rfl) (by decide) (by rfl)
  have h6 := C6_claim_tomb_threshold demoWorldClaim 3 6 demoMap5
    { balance := 0, builder_credits := 0 } (by rfl) (by decide) (by rfl)
  have hlt : safeCellCount demoMapDugOut.grid demoMapDugOut.dug < 12 := by
    decide
  have hge : 12 ≤ safeCellCount demoMap5.grid demoMap5.dug := by decide
  have hs := h5.2.1 hlt
  exact ⟨h5.1, ⟨hs.1, hs.2.1, hs.2.2.1, hs.2.2.2.1, hs.2.2.2.2 3 5⟩,
    h6.2.2 hge⟩

/-- C7 counterexample: cell 1 of map 5 is empty and is dug first by session
10 (player 1), then by session 20 (player 2).  Both digs are accepted — the
dedup check only consults each session's private history — and the map's
shared dug list ends as `[1, 1]`: the same cell index occurs twice, so the
list is not a set of distinct opened cells and its size (the quantity
compared against the 12-cell thresholds) overcounts them. -/
theorem C7_shared_dug_duplicates :
    (raid_dig demoWorldDig 500 1 10 1).2 = .safe (mkRat 1 100) false
    ∧ (raid_dig (raid_dig demoWorldDig 500 1 10 1).1 500 2 20 1).2 =
        .safe (mkRat 1 100) false
    ∧ (lookupRow
        (raid_dig (raid_dig demoWorldDig 500 1 10 1).1 500 2 20 1).1.maps
        5).map MapRow.dug = some [1, 1] := by decide

/-- C7 (amended): per dig call the target map's shared dug list gains at
most one entry — exactly the dug cell on the trap and safe outcomes, nothing
on any other outcome.  Because the dedup check consults only the digging
session's private history, the same cell index can enter the list once per
session that digs it (see the counterexample), so the list's size counts
accepted dig events rather than distinct opened cells. -/
theorem C7_dug_gains_at_most_one_entry (w : World) (now uid sid cell : Int)
    (mid : Int) (m : MapRow) (hm : lookupRow w.maps mid = some m) :
    lookupRow (raid_dig w now uid sid cell).1.maps mid = some m ∨
    lookupRow (raid_dig w now uid sid cell).1.maps mid =
      some { m with dug := m.dug ++ [cell] } := by
  by_cases hbad : cell < 0 ∨ 48 ≤ cell
  · have heq : (raid_dig w now uid sid cell).1 = w := by
      simp [raid_dig, hbad]
    rw [heq]
    exact Or.inl hm
  · cases hs : lookupRow w.sessions sid with
    | none =>
      have heq : (raid_dig w now uid sid cell).1 = w := by
        simp [raid_dig, hbad, hs]
      rw [heq]
      exact Or.inl hm
    | some s =>
      by_cases hown : s.player_id ≠ uid
      · have heq : (raid_dig w now uid sid cell).1 = w := by
          simp [raid_dig, hbad, hs, hown]
        rw [heq]
        exact Or.inl hm
      · by_cases hexp : s.expires_at < now
        · have heq : (raid_dig w now uid sid cell).1.maps = w.maps := by
            simp [raid_dig, hbad, hs, hown, hexp]
          rw [heq]
          exact Or.inl hm
        · by_cases hdup : cell ∈ s.dug_history
          · have heq : (raid_dig w now uid sid cell).1 = w := by
              simp [raid_dig, hbad, hs, hown, hexp, hdup]
            rw [heq]
            exact Or.inl hm
          · cases hm0 : lookupRow w.maps s.map_id with
            | none =>
              have heq : (raid_dig w now uid sid cell).1 = w := by
                simp [raid_dig, hbad, hs, hown, hexp, hdup, hm0]
              rw [heq]
              exact Or.inl hm
            | some m0 =>
              cases hct : m0.grid[cell.toNat]? with
              | none =>
                have heq : (raid_dig w now uid sid cell).1 = w := by
                  simp [raid_dig, hbad, hs, hown, hexp, hdup, hm0, hct]
                rw [heq]
                exact Or.inl hm
              | some ct =>
                by_cases h2 : ct = 2
                · have heq : (raid_dig w now uid sid cell).1.maps =
                      updateRow w.maps s.map_id
                        (fun mm => { mm with dug := m0.dug ++ [cell] }) := by
                    simp [raid_dig, hbad, hs, hown, hexp, hdup, hm0, hct, h2]
                  rw [heq]
                  rcases eq_or_ne mid s.map_id with he | he
                  · right
                    subst he
                    have hmm : m = m0 := by
                      rw [hm] at hm0
                      exact Option.some.inj hm0
                    subst hmm
                    rw [lookupRow_updateRow_self, hm]
                    rfl
                  · left
                    rw [lookupRow_updateRow_ne _ _ _ _ he]
                    exact hm
                · by_cases h3 : ct = 3
                  · have heq : (raid_dig w now uid sid cell).1.maps =
                        w.maps := by
                      simp [raid_dig, hbad, hs, hown, hexp, hdup, hm0, hct,
                        h2, h3]
                    rw [heq]
                    exact Or.inl hm
                  · have heq : (raid_dig w now uid sid cell).1.maps =
                        updateRow w.maps s.map_id
                          (fun mm => { mm with dug := m0.dug ++ [cell] }) := by
                      simp [raid_dig, hbad, hs, hown, hexp, hdup, hm0, hct,
                        h2, h3]
                    rw [heq]
                    rcases eq_or_ne mid s.map_id with he | he
                    · right
                      subst he
                      have hmm : m = m0 := by
                        rw [hm] at hm0
                        exact Option.some.inj hm0
                      subst hmm
                      rw [lookupRow_updateRow_self, hm]
                      rfl
                    · left
                      rw [lookupRow_updateRow_ne _ _ _ _ he]
                      exact hm

theorem C7_dug_gains_at_most_one_entry_witness :
    lookupRow (raid_dig demoWorldDig 500 1 10 1).1.maps 5 = some demoMap5 ∨
    lookupRow (raid_dig demoWorldDig 500 1 10 1).1.maps 5 =
      some { demoMap5 with dug := [1] } :=
  C7_dug_gains_at_most_one_entry demoWorldDig 500 1 10 1 5 demoMap5 (by rfl)

/-- A world where user 1 owns map 5 (all-empty grid) and has enough balance
to raid. -/
def demoWorldSelf : World :=
  { users := [(1, { balance := 1, builder_credits := 0 })],
    maps := [(5, { creator_id := 1, grid := List.replicate 48 0, dug := [],
                   active := true })],
    sessions := [], transactions := [] }

/-- C8 counterexample: `raid_start` accepts the caller's own map.  User 1,
the creator of map 5, starts a raid on it: the call succeeds and creates
session 99 whose `player_id` equals the map's `creator_id`, refuting the
claim that no session can be created for the map's creator. -/
theorem C8_self_raid_possible :
    (lookupRow demoWorldSelf.maps 5).map MapRow.creator_id = some 1
    ∧ (raid_start demoWorldSelf 0 1 (some 5) 99).2 = .success 99 [] []
    ∧ (lookupRow (raid_start demoWorldSelf 0 1 (some 5) 99).1.sessions
        99).map SessionRow.player_id = some 1 := by decide

/-- C8 (amended): `raid_start` checks only the caller's balance against the
fee and the existence of the supplied map id — it never compares the caller
to the map's creator.  For any existing map (whatever its `creator_id`,
including the caller) and sufficient balance, it debits the fee, records a
`raid_entry` ledger entry, and appends a session whose `player_id` is the
caller; only `scout` excludes the caller's own maps. -/
theorem C8_start_ignores_creator (w : World) (now uid mid newSid : Int)
    (u : UserRow) (m : MapRow)
    (hmid : mid ≠ 0)
    (hu : lookupRow w.users uid = some u)
    (hbal : raidFee ≤ u.balance)
    (hm : lookupRow w.maps mid = some m) :
    (raid_start w now uid (some mid) newSid).2 =
      .success newSid (wallIndices m.grid) m.dug
    ∧ (raid_start w now uid (some mid) newSid).1.sessions =
        w.sessions ++ [(newSid,
          { player_id := uid, map_id := mid, status := "active",
            earnings_buffer := 0, dug_history := [],
            expires_at := now + 120 })]
    ∧ (raid_start w now uid (some mid) newSid).1.users =
        updateRow w.users uid
          (fun v => { v with balance := v.balance - raidFee })
    ∧ (raid_start w now uid (some mid) newSid).1.transactions =
        w.transactions ++ [⟨uid, -raidFee, "raid_entry"⟩] := by
  have hnl : ¬ u.balance < raidFee := not_lt.mpr hbal
  have heq : raid_start w now uid (some mid) newSid =
      ({ w with
          users := updateRow w.users uid
            (fun v => { v with balance := v.balance - raidFee }),
          transactions := w.transactions ++ [⟨uid, -raidFee, "raid_entry"⟩],
          sessions := w.sessions ++ [(newSid,
            { player_id := uid, map_id := mid, status := "active",
              earnings_buffer := 0, dug_history := [],
              expires_at := now + 120 })] },
        .success newSid (wallIndices m.grid) m.dug) := by
    simp [raid_start, hmid, hu, hnl, hm]
  rw [heq]
  exact ⟨rfl, rfl, rfl, rfl⟩

theorem C8_start_ignores_creator_witness :
    (raid_start demoWorldSelf 0 1 (some 5) 99).2 =
      .success 99 (wallIndices (List.replicate 48 0)) []
    ∧ (raid_start demoWorldSelf 0 1 (some 5) 99).1.sessions =
        [(99, { player_id := 1, map_id := 5, status := "active",
                earnings_buffer := 0, dug_history := [],
                expires_at := 0 + 120 })]
    ∧ (raid_start demoWorldSelf 0 1 (some 5) 99).1.users =
        updateRow demoWorldSelf.users 1
          (fun v => { v with balance := v.balance - raidFee })
    ∧ (raid_start demoWorldSelf 0 1 (some 5) 99).1.transactions =
        [⟨1, -raidFee, "raid_entry"⟩] := by
  have h := C8_start_ignores_creator demoWorldSelf 0 1 5 99
    { balance := 1, builder_credits := 0 }
    { creator_id := 1, grid := List.replicate 48 0, dug := [], active := true }
    (by decide) (by rfl) (by decide) (by rfl)
  exact ⟨h.1, h.2.1, h.2.2.1, h.2.2.2⟩

/-- C1: over any choice of the HMAC primitives, the user-JSON reader and the
query-string parser — hence in particular the real ones — a payload of
distinct-keyed `key=value` pairs carrying a `user` object with an id and an
integer `auth_date`: (a) validates to the embedded user id when it is fresh
(`now - auth_date < 86400`) and its `hash` field equals the hex HMAC-SHA256,
keyed by HMAC-SHA256 of the bot token under `WebAppData`, of the remaining
fields sorted by key and joined by newlines; (b) is invalid when the `hash`
field is absent; (c) is invalid when the `hash` field differs anywhere from
that value; and (d) is invalid when `now - auth_date ≥ 86400`, the 24-hour
boundary itself included. -/
theorem C1_validate_signature_round_trip
    (hmacRaw hmacHex : String → String → String)
    (parseUserId : String → Option Int)
    (parseQsl : String → List (String × String))
    (botToken : String) (now : ℚ) (init_data : String)
    (data : List (String × String)) (ustr astr : String) (uid ad : Int)
    (htoken : botToken ≠ "")
    (hmock : parseQsl mockInitData = [])
    (hparse : parseQsl init_data = data)
    (_hnodup : (data.map Prod.fst).Nodup)
    (huser : lookupField data userKey = some ustr)
    (hid : parseUserId ustr = some uid)
    (hauth : lookupField data authDateKey = some astr)
    (had : pyInt? astr = some ad) :
    (now - (ad : ℚ) < 86400 →
      lookupField data hashKey =
        some (telegramCalculatedHash hmacRaw hmacHex botToken
          (dataCheckString data)) →
      validate_init_data hmacRaw hmacHex parseUserId parseQsl botToken now
        init_data = .valid uid)
    ∧ (lookupField data hashKey = none →
      validate_init_data hmacRaw hmacHex parseUserId parseQsl botToken now
        init_data = .invalid)
    ∧ (∀ received, lookupField data hashKey = some received →
      received ≠ telegramCalculatedHash hmacRaw hmacHex botToken
        (dataCheckString data) →
      validate_init_data hmacRaw hmacHex parseUserId parseQsl botToken now
        init_data = .invalid)
    ∧ ((86400 : ℚ) ≤ now - (ad : ℚ) →
      validate_init_data hmacRaw hmacHex parseUserId parseQsl botToken now
        init_data = .invalid) := by
  have hne : init_data ≠ mockInitData := by
    intro hcon
    rw [hcon, hmock] at hparse
    rw [← hparse] at hauth
    simp [lookupField] at hauth
  refine ⟨?_, ?_, ?_, ?_⟩
  · intro hfresh hhash
    have hstale : ¬ (86400 : ℚ) ≤ now - (ad : ℚ) := not_le.mpr hfresh
    simp [validate_init_data, hne, htoken, hparse, hauth, had, hstale,
      hhash, huser, hid]
  · intro hhash
    by_cases hstale : (86400 : ℚ) ≤ now - (ad : ℚ)
    · simp [validate_init_data, hne, htoken, hparse, hauth, had, hstale]
    · simp [validate_init_data, hne, htoken, hparse, hauth, had, hstale,
        hhash]
  · intro received hhash hdiff
    by_cases hstale : (86400 : ℚ) ≤ now - (ad : ℚ)
    · simp [validate_init_data, hne, htoken, hparse, hauth, had, hstale]
    · simp [validate_init_data, hne, htoken, hparse, hauth, had, hstale,
        hhash, hdiff]
  · intro hstale
    simp [validate_init_data, hne, htoken, hparse, hauth, had, hstale]

/-- A concrete stand-in for the HMAC-SHA256 primitives in the witness. -/
def demoHmac (k m : String) : String := k ++ "|" ++ m

def demoToken : String := "token123"

def demoUserJson : String := "uid is 123"

def demoAuthDateVal : String := "100"

def demoForgedHash : String := "forged"

/-- A concrete stand-in for `json.loads(user).get` in the witness. -/
def demoParseUser (s : String) : Option Int :=
  if s = demoUserJson then some 123 else none

def demoDataNoHash : List (String × String) :=
  [(authDateKey, demoAuthDateVal), (userKey, demoUserJson)]

def demoDataSigned : List (String × String) :=
  demoDataNoHash ++
    [(hashKey, telegramCalculatedHash demoHmac demoHmac demoToken
        (dataCheckString demoDataNoHash))]

def demoDataBadHash : List (String × String) :=
  demoDataNoHash ++ [(hashKey, demoForgedHash)]

def demoPayloadSigned : String := "payload_signed"

def demoPayloadNoHash : String := "payload_nohash"

def demoPayloadBadHash : String := "payload_badhash"

/-- A concrete stand-in for `parse_qsl` plus `dict` in the witness. -/
def demoParseQsl (s : String) : List (String × String) :=
  if s = demoPayloadSigned then demoDataSigned
  else if s = demoPayloadNoHash then demoDataNoHash
  else if s = demoPayloadBadHash then demoDataBadHash
  else []

theorem C1_validate_signature_round_trip_witness :
    validate_init_data demoHmac demoHmac demoParseUser demoParseQsl demoToken
      86499 demoPayloadSigned = .valid 123
    ∧ validate_init_data demoHmac demoHmac demoParseUser demoParseQsl
        demoToken 86500 demoPayloadSigned = .invalid
    ∧ validate_init_data demoHmac demoHmac demoParseUser demoParseQsl
        demoToken 86499 demoPayloadNoHash = .invalid
    ∧ validate_init_data demoHmac demoHmac demoParseUser demoParseQsl
        demoToken 86499 demoPayloadBadHash = .invalid := by
  have hsigned := C1_validate_signature_round_trip demoHmac demoHmac
    demoParseUser demoParseQsl demoToken 86499 demoPayloadSigned
    demoDataSigned demoUserJson demoAuthDateVal 123 100
    (by decide) (by decide) (by decide) (by decide) (by decide) (by decide)
    (by decide) (by decide)
  have hstale := C1_validate_signature_round_trip demoHmac demoHmac
    demoParseUser demoParseQsl demoToken 86500 demoPayloadSigned
    demoDataSigned demoUserJson demoAuthDateVal 123 100
    (by decide) (by decide) (by decide) (by decide) (by decide) (by decide)
    (by decide) (by decide)
  have hnohash := C1_validate_signature_round_trip demoHmac demoHmac
    demoParseUser demoParseQsl demoToken 86499 demoPayloadNoHash
    demoDataNoHash demoUserJson demoAuthDateVal 123 100
    (by decide) (by decide) (by decide) (by decide) (by decide) (by decide)
    (by decide) (by decide)
  have hbadhash := C1_validate_signature_round_trip demoHmac demoHmac
    demoParseUser demoParseQsl demoToken 86499 demoPayloadBadHash
    demoDataBadHash demoUserJson demoAuthDateVal 123 100
    (by decide) (by decide) (by decide) (by decide) (by decide) (by decide)
    (by decide) (by decide)
  refine ⟨hsigned.1 (by norm_num) (by decide), hstale.2.2.2 (by norm_num),
    hnohash.2.1 (by decide), hbadhash.2.2.1 demoForgedHash (by decide) (by decide)⟩

end TonbRiders
